import Mathlib

/-!
Shallow embedding of `torch/_prims/utils.py`: the dtype classification
tables, the dtype/scalar-kind maps, the operand compatibility checks,
dimension canonicalization, tensor-metadata comparison, and the
elementwise type-promotion engine (`elementwise_dtypes`).

Machine integers do not occur: the Python code manipulates only small
enumerations, lists, and Python ints (arbitrary precision), which are
modelled by `Nat`/`Int`.  Fallible Python code (a `raise`) is modelled by
`Except String` or `Option`.
-/

deriving instance DecidableEq for Except

namespace TorchPrims

/-- The closed set of torch dtypes handled by this module
(the members of `_integer_dtypes`, `_float_dtypes`, `_complex_dtypes`
plus `torch.bool`). -/
inductive Dtype
  | bool
  | uint8
  | int8
  | int16
  | int32
  | int64
  | float16
  | bfloat16
  | float32
  | float64
  | complex32
  | complex64
  | complex128
deriving DecidableEq, Fintype

/-- A Python "Number type": one of `bool`, `int`, `float`, `complex`
(the tuple `Number` in the source). -/
inductive ScalarKind
  | bool
  | int
  | float
  | complex
deriving DecidableEq, Fintype

/-- A torch.device: a device type string plus an optional index.
`torch.device("cpu")` is `⟨"cpu", none⟩`.  Equality is structural,
as for `torch.device`. -/
structure Device where
  ty : String
  index : Option Nat
deriving DecidableEq

/-- `torch.device("cpu")`. -/
def cpuDevice : Device := ⟨"cpu", none⟩

/-- The metadata of a TensorLike operand that this module reads:
shape (hence `ndim`), dtype and device.  (Strides are never read by the
functions embedded here.) -/
structure Tensor where
  shape : List Nat
  dtype : Dtype
  device : Device
deriving DecidableEq

/-- `Tensor.ndim`, the rank: length of the shape. -/
def Tensor.ndim (t : Tensor) : Nat := t.shape.length

/-- An argument as passed to the variadic checks and to
`elementwise_dtypes`: a Number (only its Python type matters to this
module), a TensorLike, or an object of any other, unexpected type. -/
inductive Arg
  | number (k : ScalarKind)
  | tensor (t : Tensor)
  | other
deriving DecidableEq

/-- `_integer_dtypes` tuple from the source. -/
def _integer_dtypes : List Dtype := [.uint8, .int8, .int16, .int32, .int64]

/-- `_float_dtypes` tuple from the source. -/
def _float_dtypes : List Dtype := [.float16, .bfloat16, .float32, .float64]

/-- `_complex_dtypes` tuple from the source. -/
def _complex_dtypes : List Dtype := [.complex32, .complex64, .complex128]

/-- `is_boolean_dtype`: `dtype is torch.bool`. -/
def is_boolean_dtype (d : Dtype) : Bool := d = Dtype.bool

/-- `is_integer_dtype`: membership in `_integer_dtypes`. -/
def is_integer_dtype (d : Dtype) : Bool := _integer_dtypes.contains d

/-- `is_float_dtype`: membership in `_float_dtypes`. -/
def is_float_dtype (d : Dtype) : Bool := _float_dtypes.contains d

/-- `is_complex_dtype`: membership in `_complex_dtypes`. -/
def is_complex_dtype (d : Dtype) : Bool := _complex_dtypes.contains d

/-- `corresponding_real_dtype`: lookup in `_complex_to_real_dtype_map`;
`none` models the `KeyError` on a dtype outside the map's domain. -/
def corresponding_real_dtype : Dtype → Option Dtype
  | .complex128 => some .float64
  | .complex64 => some .float32
  | .complex32 => some .float16
  | _ => none

/-- `corresponding_complex_dtype`: lookup in `_real_to_complex_dtype_map`;
`none` models the `KeyError` on a dtype outside the map's domain. -/
def corresponding_complex_dtype : Dtype → Option Dtype
  | .float16 => some .complex32
  | .bfloat16 => some .complex64
  | .float32 => some .complex64
  | .float64 => some .complex128
  | _ => none

/-- `dtype_to_type`: the Python type kind of a dtype.  The source checks
bool, then `_integer_dtypes`, then `_float_dtypes`, then
`_complex_dtypes`, and raises `ValueError` otherwise; every member of the
closed `Dtype` set falls in exactly one of the four cases, so the raise
is unreachable and the final branch is exactly the complex case. -/
def dtype_to_type (d : Dtype) : ScalarKind :=
  if is_boolean_dtype d then .bool
  else if is_integer_dtype d then .int
  else if is_float_dtype d then .float
  else .complex

/-- `_type_to_dtype_map` / `type_to_dtype`: a fixed four-entry dict in
the source (`bool: torch.bool, int: torch.int64, float: torch.float64,
complex: torch.complex128`). -/
def type_to_dtype : ScalarKind → Dtype
  | .bool => .bool
  | .int => .int64
  | .float => .float64
  | .complex => .complex128

/-- `_ordered_types` tuple from the source. -/
def _ordered_types : List ScalarKind := [.bool, .int, .float, .complex]

/-- The scan loop of `get_higher_type`: walk `_ordered_types`; the first
of `a`, `b` encountered is the lower, so return the other.  `none`
models the trailing `ValueError` raise (unreachable, since the list
enumerates every `ScalarKind`). -/
def _ght_scan (a b : ScalarKind) : List ScalarKind → Option ScalarKind
  | [] => none
  | t :: rest =>
    if a = t then some b
    else if b = t then some a
    else _ght_scan a b rest

/-- `get_higher_type`: the greater of two scalar kinds under
bool < int < float < complex.  The `getD a` default replaces the
unreachable `ValueError` branch of the source's loop. -/
def get_higher_type (a b : ScalarKind) : ScalarKind :=
  if a = b then a else (_ght_scan a b _ordered_types).getD a

/-- `ordered_datatypes`: the 11-bucket partial order local to
`get_higher_dtype`. -/
def ordered_datatypes : List (List Dtype) :=
  [[.bool],
   [.uint8, .int8],
   [.int16],
   [.int32],
   [.int64],
   [.float16, .bfloat16],
   [.float32],
   [.float64],
   [.complex32],
   [.complex64],
   [.complex128]]

/-- The bucket loop of `get_higher_dtype` (entered with `a ≠ b`):
if both dtypes are in the current bucket, return the first dtype of the
next bucket (`ordered_datatypes[idx + 1][0]`); if exactly one is, the
other is higher.  `none` models the trailing raise / an out-of-range
index, both unreachable on the 13 recognized dtypes. -/
def _ghd_go (a b : Dtype) : List (List Dtype) → Option Dtype
  | [] => none
  | ds :: rest =>
    if ds.contains a && ds.contains b then rest.head?.bind List.head?
    else if ds.contains a then some b
    else if ds.contains b then some a
    else _ghd_go a b rest

/-- `get_higher_dtype` after `_extract_dtype` has been applied to both
sides: equal (including both-`none`) returns the left, an absent side
returns the other, and otherwise the bucket walk decides. -/
def get_higher_dtype_d (a b : Option Dtype) : Option Dtype :=
  if a = b then a
  else
    match a, b with
    | none, _ => b
    | _, none => a
    | some x, some y => _ghd_go x y ordered_datatypes

/-- The `Optional[Union[torch.dtype, TensorLikeType, NumberType]]`
argument type of `get_higher_dtype` (the absent case is `Option`'s
`none` at the call site). -/
inductive DtypeArg
  | dtype (d : Dtype)
  | tensor (t : Tensor)
  | number (k : ScalarKind)
deriving DecidableEq

/-- The effective dtype of a non-absent `get_higher_dtype` argument:
a dtype itself, a TensorLike's dtype, or the `type_to_dtype` image of a
Number's kind. -/
def DtypeArg.extract : DtypeArg → Dtype
  | .dtype d => d
  | .tensor t => t.dtype
  | .number k => type_to_dtype k

/-- `_extract_dtype` from the source: `None` passes through. -/
def _extract_dtype (x : Option DtypeArg) : Option Dtype :=
  x.map DtypeArg.extract

/-- `get_higher_dtype` on its full argument type. -/
def get_higher_dtype (a b : Option DtypeArg) : Option Dtype :=
  get_higher_dtype_d (_extract_dtype a) (_extract_dtype b)

/-- The scan loop of `can_safe_cast_to` over the fixed predicate order
`(is_complex_dtype, is_float_dtype, is_integer_dtype, is_boolean_dtype)`;
`none` models the trailing `ValueError` raise. -/
def _cast_scan (cast_to cast_from : Dtype) : List (Dtype → Bool) → Option Bool
  | [] => none
  | fn :: rest =>
    if fn cast_to then some true
    else if fn cast_from then some false
    else _cast_scan cast_to cast_from rest

/-- `can_safe_cast_to`. -/
def can_safe_cast_to (cast_to cast_from : Dtype) : Option Bool :=
  _cast_scan cast_to cast_from
    [is_complex_dtype, is_float_dtype, is_integer_dtype, is_boolean_dtype]

/-- `canonicalize_dim`: wrap a (possibly negative) dimension index for
the given rank, with `_rank = rank if rank != 0 else 1`; `Except.error`
models the `ValueError` raise. -/
def canonicalize_dim (rank : Nat) (idx : Int) : Except String Int :=
  let _rank : Int := if rank ≠ 0 then (rank : Int) else 1
  if 0 ≤ idx ∧ idx < _rank then Except.ok idx
  else
    let _idx := if idx < 0 then idx + _rank else idx
    if _idx < 0 ∨ _idx > _rank then
      Except.error "Received out of bounds index for tensor!"
    else Except.ok _idx

/-- `compare_tensor_meta`: raises on the first shape mismatch over
`zip(a.shape, b.shape)`, then on a dtype mismatch, then on a device
mismatch. -/
def compare_tensor_meta (a b : Tensor) : Except String Unit :=
  if (a.shape.zip b.shape).any (fun p => p.1 ≠ p.2) then
    Except.error "Shapes are not equal!"
  else if a.dtype ≠ b.dtype then Except.error "Dtypes are not equal!"
  else if a.device ≠ b.device then Except.error "Devices are not equal!"
  else Except.ok ()

/-- `is_cpu_scalar_tensor`: a TensorLike of rank 0 whose device type is
`"cpu"` (any other argument gives `False` via the `isinstance` check). -/
def is_cpu_scalar_tensor (a : Arg) : Bool :=
  match a with
  | .tensor t => t.ndim = 0 && t.device.ty = "cpu"
  | _ => false

/-- The scan loop of `check_same_device`: `device` holds the expected
device once one has been seen. -/
def _csdv_go (allow_cpu_scalar_tensors : Bool) (device : Option Device) :
    List Arg → Except String Unit
  | [] => Except.ok ()
  | .number _ :: rest => _csdv_go allow_cpu_scalar_tensors device rest
  | .tensor t :: rest =>
    if allow_cpu_scalar_tensors && is_cpu_scalar_tensor (.tensor t) then
      _csdv_go allow_cpu_scalar_tensors device rest
    else
      let d := device.getD t.device
      if d ≠ t.device then
        Except.error "Tensor is not on the expected device!"
      else _csdv_go allow_cpu_scalar_tensors (some d) rest
  | .other :: _ => Except.error "Unexpected type when checking for same device!"

/-- `check_same_device`: short-circuits when at most one argument is
given, otherwise scans. -/
def check_same_device (allow_cpu_scalar_tensors : Bool) (args : List Arg) :
    Except String Unit :=
  if args.length ≤ 1 then Except.ok ()
  else _csdv_go allow_cpu_scalar_tensors none args

/-- The scan loop of `check_same_dtype`: `full_dtype` and `scalar_type`
hold the first-seen tensor dtype and its derived scalar kind (Numbers
are skipped by the `continue` before any check). -/
def _csd_go (full_dtype : Option Dtype) (scalar_type : Option ScalarKind) :
    List Arg → Except String Unit
  | [] => Except.ok ()
  | .number _ :: rest => _csd_go full_dtype scalar_type rest
  | .tensor t :: rest =>
    let fd := full_dtype.getD t.dtype
    let st := scalar_type.getD (dtype_to_type t.dtype)
    if fd ≠ t.dtype then
      Except.error "Tensor with dtype is not the expected dtype!"
    else if dtype_to_type t.dtype ≠ st then
      Except.error "Tensor with corresponding Python type is not the expected type!"
    else _csd_go (some fd) (some st) rest
  | .other :: _ => Except.error "Unexpected type when checking for same dtype!"

/-- `check_same_dtype`. -/
def check_same_dtype (args : List Arg) : Except String Unit :=
  _csd_go none none args

/-- `_computation_dtype_map` / `_get_computation_dtype`: identity except
on the three entries of the dict. -/
def _get_computation_dtype : Dtype → Dtype
  | .bfloat16 => .float32
  | .float16 => .float32
  | .complex32 => .complex64
  | d => d

/-- `ELEMENTWISE_TYPE_PROMOTION_KIND` enum. -/
inductive ELEMENTWISE_TYPE_PROMOTION_KIND
  | DEFAULT
  | INT_TO_FLOAT
  | ALWAYS_BOOL
  | OP_MATH
  | COMPLEX_TO_FLOAT
  | BOOL_TO_LONG
deriving DecidableEq, Fintype

/-- The first loop of `elementwise_dtypes`: folds `get_higher_type`
over the Python types of the arguments, raising `ValueError` on an
argument that is neither Number nor TensorLike. -/
def _ht_go (acc : ScalarKind) : List Arg → Except String ScalarKind
  | [] => Except.ok acc
  | .number k :: rest => _ht_go (get_higher_type acc k) rest
  | .tensor t :: rest => _ht_go (get_higher_type acc (dtype_to_type t.dtype)) rest
  | .other :: _ =>
    Except.error "Unexpected type when computing elementwise type promotion!"

/-- The highest scalar kind of an argument list, starting from `bool`
(Step 1 of `elementwise_dtypes`). -/
def _highest_type (args : List Arg) : Except String ScalarKind :=
  _ht_go .bool args

/-- The dtype a matching tensor contributes inside
`_find_highest_dtype_filtered`: with `float_as_complex` set, a float
dtype is first mapped to its corresponding complex dtype (the `getD`
default replaces the `KeyError`, unreachable since every float dtype is
in `_real_to_complex_dtype_map`). -/
def _fhdf_mapped (float_as_complex : Bool) (d : Dtype) : Dtype :=
  if float_as_complex && is_float_dtype d then
    (corresponding_complex_dtype d).getD d
  else d

/-- The loop of `_find_highest_dtype_filtered`, threading the
`zero_dim_tensor_dtype` and `one_plus_dim_tensor_dtype` accumulators:
a matching tensor goes to the zero-dim accumulator exactly when it has
rank 0 and `all_tensors_equal` is unset. -/
def _fhdf_go (filt : Dtype → Bool) (float_as_complex all_tensors_equal : Bool)
    (zero_dim one_plus_dim : Option Dtype) :
    List Arg → Option Dtype × Option Dtype
  | [] => (zero_dim, one_plus_dim)
  | .tensor t :: rest =>
    if filt t.dtype then
      let _dtype := _fhdf_mapped float_as_complex t.dtype
      if t.ndim = 0 && !all_tensors_equal then
        _fhdf_go filt float_as_complex all_tensors_equal
          (get_higher_dtype_d zero_dim (some _dtype)) one_plus_dim rest
      else
        _fhdf_go filt float_as_complex all_tensors_equal
          zero_dim (get_higher_dtype_d one_plus_dim (some _dtype)) rest
    else _fhdf_go filt float_as_complex all_tensors_equal zero_dim one_plus_dim rest
  | _ :: rest =>
    _fhdf_go filt float_as_complex all_tensors_equal zero_dim one_plus_dim rest

/-- `_find_highest_dtype_filtered`: prefers the dtype accumulated from
tensors with one or more dimensions. -/
def _find_highest_dtype_filtered (args : List Arg) (filt : Dtype → Bool)
    (float_as_complex all_tensors_equal : Bool) : Option Dtype :=
  let r := _fhdf_go filt float_as_complex all_tensors_equal none none args
  match r.2 with
  | some d => some d
  | none => r.1

/-- The filter used by the complex branch of `elementwise_dtypes`:
`lambda x: is_float_dtype(x) or is_complex_dtype(x)`. -/
def _float_or_complex (d : Dtype) : Bool :=
  is_float_dtype d || is_complex_dtype d

/-- The complex-branch probe of `elementwise_dtypes`: whether some
TensorLike argument has `ndim > 0` and a complex dtype. -/
def _has_one_plus_dim_complex_tensor (args : List Arg) : Bool :=
  args.any fun a =>
    match a with
    | .tensor t => decide (0 < t.ndim) && is_complex_dtype t.dtype
    | _ => false

/-- Step 2 of `elementwise_dtypes`: the base result dtype, branching on
the highest scalar kind.  `default_dtype` models the process-wide
`torch.get_default_dtype()` (always a float dtype in torch); the
`Except.error` in the complex fallback models the `KeyError` were the
default dtype outside `_real_to_complex_dtype_map`. -/
def _base_result_dtype (default_dtype : Dtype) (args : List Arg) :
    Except String Dtype :=
  match _highest_type args with
  | Except.error e => Except.error e
  | Except.ok ht =>
    match ht with
    | .float =>
      Except.ok ((_find_highest_dtype_filtered args is_float_dtype false false).getD
        default_dtype)
    | .complex =>
      let r :=
        if _has_one_plus_dim_complex_tensor args then
          _find_highest_dtype_filtered args _float_or_complex true false
        else
          _find_highest_dtype_filtered args _float_or_complex true true
      match r with
      | some d => Except.ok d
      | none =>
        match corresponding_complex_dtype default_dtype with
        | some c => Except.ok c
        | none => Except.error "KeyError: no corresponding complex dtype!"
    | .int =>
      Except.ok ((_find_highest_dtype_filtered args is_integer_dtype false false).getD
        Dtype.int64)
    | .bool => Except.ok Dtype.bool

/-- `elementwise_dtypes`: drops absent (`None`) arguments, computes the
base result dtype, then applies the promotion-kind policy (Step 3). -/
def elementwise_dtypes (default_dtype : Dtype) (_args : List (Option Arg))
    (type_promotion_kind : ELEMENTWISE_TYPE_PROMOTION_KIND) :
    Except String (Dtype × Dtype) :=
  let args := _args.filterMap id
  match _base_result_dtype default_dtype args with
  | Except.error e => Except.error e
  | Except.ok result_dtype =>
    match type_promotion_kind with
    | .DEFAULT => Except.ok (result_dtype, result_dtype)
    | .OP_MATH => Except.ok (_get_computation_dtype result_dtype, result_dtype)
    | .INT_TO_FLOAT =>
      let r :=
        if is_integer_dtype result_dtype || is_boolean_dtype result_dtype then
          default_dtype
        else result_dtype
      Except.ok (_get_computation_dtype r, r)
    | .COMPLEX_TO_FLOAT =>
      if is_complex_dtype result_dtype then
        match corresponding_real_dtype result_dtype with
        | some rr => Except.ok (_get_computation_dtype result_dtype, rr)
        | none => Except.error "KeyError: no corresponding real dtype!"
      else Except.ok (_get_computation_dtype result_dtype, result_dtype)
    | .BOOL_TO_LONG =>
      if is_boolean_dtype result_dtype then Except.ok (Dtype.int64, Dtype.int64)
      else Except.ok (result_dtype, result_dtype)
    | .ALWAYS_BOOL => Except.ok (result_dtype, Dtype.bool)

/-!
Specification-side helper definitions, used to state the theorems below
in the language of the specification (bucket indices, rank-split scans,
well-typedness of an argument list). Each is compared against the
source-side functions above by a proved theorem, never assumed equal.
-/

/-- The index of the bucket of `ordered_datatypes` containing a dtype. -/
def _bucket_idx (d : Dtype) : Nat :=
  ordered_datatypes.findIdx fun b => b.contains d

/-- The first dtype of the bucket after the one containing `d`
(falling back to `d` itself when there is no next bucket; for the two
paired buckets, where it is used, the next bucket always exists). -/
def _next_bucket_dtype (d : Dtype) : Dtype :=
  (((ordered_datatypes.get? (_bucket_idx d + 1)).bind List.head?).getD d)

/-- Numeric height of a scalar kind under bool < int < float < complex. -/
def ScalarKind.toNat : ScalarKind → Nat
  | .bool => 0
  | .int => 1
  | .float => 2
  | .complex => 3

/-- Every argument is a Number or a TensorLike. -/
def _well_typed (args : List Arg) : Prop := ∀ a ∈ args, a ≠ Arg.other

instance (args : List Arg) : Decidable (_well_typed args) := by
  unfold _well_typed; infer_instance

/-- The TensorLike arguments, in order. -/
def _tensor_args (args : List Arg) : List Tensor :=
  args.filterMap fun a =>
    match a with
    | .tensor t => some t
    | _ => none

/-- The TensorLike arguments that `check_same_device` does not exempt:
when `allow_cpu_scalar_tensors` is set, rank-0 CPU tensors are dropped. -/
def _non_exempt_tensors (allow_cpu_scalar_tensors : Bool) (args : List Arg) :
    List Tensor :=
  args.filterMap fun a =>
    match a with
    | .tensor t =>
      if allow_cpu_scalar_tensors && is_cpu_scalar_tensor (.tensor t) then none
      else some t
    | _ => none

/-- The TensorLike arguments with a float or complex dtype, in order. -/
def _float_complex_tensors (args : List Arg) : List Tensor :=
  args.filterMap fun a =>
    match a with
    | .tensor t => if _float_or_complex t.dtype then some t else none
    | _ => none

/-- Map a float dtype to its corresponding complex dtype; leave any
other dtype unchanged. -/
def _as_complex (d : Dtype) : Dtype :=
  if is_float_dtype d then (corresponding_complex_dtype d).getD d else d

/-- One step of accumulating the highest dtype seen so far. -/
def _promotion_step (acc : Option Dtype) (d : Dtype) : Option Dtype :=
  get_higher_dtype_d acc (some d)

/-- The highest dtype of a list under `get_higher_dtype`, scanned left
to right starting from absent. -/
def _highest_mapped (ds : List Dtype) : Option Dtype :=
  ds.foldl _promotion_step none

/-- The scan the specification describes for the complex branch when a
rank>0 complex tensor exists: over float-or-complex tensors, float
dtypes mapped to complex, preferring rank>0 tensors over rank-0 ones. -/
def _complex_scan_preferring (args : List Arg) : Option Dtype :=
  match _highest_mapped (((_float_complex_tensors args).filter fun t =>
      0 < t.ndim).map fun t => _as_complex t.dtype) with
  | some d => some d
  | none =>
    _highest_mapped (((_float_complex_tensors args).filter fun t =>
      t.ndim = 0).map fun t => _as_complex t.dtype)

/-- The same scan with rank ignored entirely: every float-or-complex
tensor participates, regardless of rank. -/
def _complex_scan_rank_ignored (args : List Arg) : Option Dtype :=
  _highest_mapped ((_float_complex_tensors args).map fun t => _as_complex t.dtype)

/-- The contribution of one argument to the zero-dim accumulator of
`_fhdf_go`. -/
def _fhdf_zero_sel (filt : Dtype → Bool) (float_as_complex all_tensors_equal : Bool) :
    Arg → Option Dtype
  | .tensor t =>
    if filt t.dtype && (t.ndim = 0 && !all_tensors_equal) then
      some (_fhdf_mapped float_as_complex t.dtype)
    else none
  | _ => none

/-- The contribution of one argument to the one-plus-dim accumulator of
`_fhdf_go`. -/
def _fhdf_one_sel (filt : Dtype → Bool) (float_as_complex all_tensors_equal : Bool) :
    Arg → Option Dtype
  | .tensor t =>
    if filt t.dtype && !(t.ndim = 0 && !all_tensors_equal) then
      some (_fhdf_mapped float_as_complex t.dtype)
    else none
  | _ => none

/-!
Theorems.
-/

/-- Helper for C4: the dtype-level core of `get_higher_dtype`, on two
present dtypes, follows the bucket order: equal dtypes return the left,
a same-bucket mismatch returns the next bucket's dtype, and otherwise
the dtype in the higher bucket wins. -/
theorem get_higher_dtype_d_buckets (d1 d2 : Dtype) :
    get_higher_dtype_d (some d1) (some d2) =
      some (if d1 = d2 then d1
        else if _bucket_idx d1 = _bucket_idx d2 then _next_bucket_dtype d1
        else if _bucket_idx d2 < _bucket_idx d1 then d1 else d2) := by
  revert d1 d2; decide

/-- Claim C4: for every pair of non-absent inputs (dtype, TensorLike,
or Number) with extracted dtypes d1 and d2, `get_higher_dtype` returns
d1 when d1 = d2, the next bucket's dtype when d1 and d2 lie in the same
bucket of the 11-bucket order but differ, and otherwise the dtype in
the higher bucket; an absent side returns the other side's extracted
dtype unchanged, and absent + absent returns absent. -/
theorem get_higher_dtype_spec :
    (∀ a b : DtypeArg,
      get_higher_dtype (some a) (some b) =
        some (if a.extract = b.extract then a.extract
          else if _bucket_idx a.extract = _bucket_idx b.extract then
            _next_bucket_dtype a.extract
          else if _bucket_idx b.extract < _bucket_idx a.extract then a.extract
          else b.extract)) ∧
    (∀ a : DtypeArg, get_higher_dtype (some a) none = some a.extract) ∧
    (∀ b : DtypeArg, get_higher_dtype none (some b) = some b.extract) ∧
    get_higher_dtype none none = none := by
  refine ⟨?_, ?_, ?_, rfl⟩
  · intro a b
    simpa [get_higher_dtype, _extract_dtype] using
      get_higher_dtype_d_buckets a.extract b.extract
  · intro a
    simp [get_higher_dtype, _extract_dtype, get_higher_dtype_d]
  · intro b
    simp [get_higher_dtype, _extract_dtype, get_higher_dtype_d]

/-- Claim C2, counterexample: the claim says `type_to_dtype` maps the
float kind to the process-wide default float dtype for every value of
that configuration; but the source's `_type_to_dtype_map` is a fixed
dict whose float entry is `torch.float64`, so under the configuration
default-float-dtype = float32 (torch's initial default) the claimed
equality fails. -/
theorem type_to_dtype_not_default_counterexample :
    type_to_dtype ScalarKind.float = Dtype.float64 ∧
    Dtype.float64 ≠ Dtype.float32 := by decide

/-- Claim C2, amended: `type_to_dtype` maps bool to the boolean dtype,
int to the 64-bit signed integer dtype, float to the 64-bit float dtype,
and complex to the 128-bit complex dtype, independently of the
process-wide default-dtype configuration (the map is a fixed dict). -/
theorem type_to_dtype_fixed_map :
    type_to_dtype ScalarKind.bool = Dtype.bool ∧
    type_to_dtype ScalarKind.int = Dtype.int64 ∧
    type_to_dtype ScalarKind.float = Dtype.float64 ∧
    type_to_dtype ScalarKind.complex = Dtype.complex128 := by decide

/-- Claim C3, counterexample: on a lone rank-1 float16 tensor with
promotion kind BOOL_TO_LONG, the code returns (float16, float16),
whereas the claim's "else (m(R), R)" clause for BOOL_TO_LONG predicts
(float32, float16) since m(float16) = float32. -/
theorem bool_to_long_counterexample :
    elementwise_dtypes Dtype.float32
        [some (Arg.tensor ⟨[2], Dtype.float16, cpuDevice⟩)]
        ELEMENTWISE_TYPE_PROMOTION_KIND.BOOL_TO_LONG =
      Except.ok (Dtype.float16, Dtype.float16) ∧
    (Dtype.float16, Dtype.float16) ≠
      (_get_computation_dtype Dtype.float16, Dtype.float16) := by decide

/-- Claim C5 (code bug evaluation): the code maps a negative idx by
adding max(1, rank), as the claim states (`canonicalize_dim 5 (-1) = 4`),
but at rank = 5, idx = 5 it returns 5 without an error, because its
bounds check is `_idx > _rank` rather than `_idx >= _rank`; the claim
(and the spec's example) say this input fails with out-of-bounds. -/
theorem canonicalize_dim_bug_eval :
    canonicalize_dim 5 5 = Except.ok 5 ∧
    canonicalize_dim 5 (-1) = Except.ok 4 := by decide

/-- Claim C7: `can_safe_cast_to` scans the categories in the priority
order complex, float, integer, boolean, testing `cast_to` before
`cast_from` at each step, and returns true exactly when `cast_from`'s
category is not strictly higher than `cast_to`'s under
bool < int < float < complex. -/
theorem can_safe_cast_to_spec (cast_to cast_from : Dtype) :
    can_safe_cast_to cast_to cast_from =
      some (decide ((dtype_to_type cast_from).toNat ≤ (dtype_to_type cast_to).toNat)) := by
  revert cast_to cast_from; decide

/-- Claim C8: `corresponding_complex_dtype ∘ corresponding_real_dtype`
is the identity on the three complex dtypes. -/
theorem complex_real_roundtrip :
    (corresponding_real_dtype Dtype.complex32).bind corresponding_complex_dtype =
      some Dtype.complex32 ∧
    (corresponding_real_dtype Dtype.complex64).bind corresponding_complex_dtype =
      some Dtype.complex64 ∧
    (corresponding_real_dtype Dtype.complex128).bind corresponding_complex_dtype =
      some Dtype.complex128 := by decide

/-- Claim C10: `compare_tensor_meta` compares shapes only position-wise
up to the shorter rank: when the shapes agree on their common prefix the
shape check passes even for differing ranks, the function proceeds to
the dtype comparison (a dtype mismatch is reported as the dtype error,
not a shape error), and it succeeds when dtype and device also agree. -/
theorem compare_tensor_meta_common_shape (a b : Tensor)
    (h : ∀ p ∈ a.shape.zip b.shape, p.1 = p.2) :
    (a.dtype = b.dtype → a.device = b.device →
      compare_tensor_meta a b = Except.ok ()) ∧
    (a.dtype ≠ b.dtype →
      compare_tensor_meta a b = Except.error "Dtypes are not equal!") := by
  have hz : (a.shape.zip b.shape).any (fun p => p.1 ≠ p.2) = false := by
    simp only [List.any_eq_false, decide_eq_true_eq]
    intro p hp
    simpa using h p hp
  constructor
  · intro h1 h2
    simp only [compare_tensor_meta, hz, Bool.false_eq_true, if_false]
    simp [h1, h2]
  · intro h1
    simp only [compare_tensor_meta, hz, Bool.false_eq_true, if_false]
    simp [h1]

/-- Witness for C10 at shapes (2,3) and (2,3,4) with equal dtype and
device: the hypotheses hold and the comparison succeeds. -/
theorem compare_tensor_meta_common_shape_witness :
    compare_tensor_meta ⟨[2, 3], Dtype.float32, cpuDevice⟩
      ⟨[2, 3, 4], Dtype.float32, cpuDevice⟩ = Except.ok () :=
  (compare_tensor_meta_common_shape _ _ (by decide)).1 rfl rfl

/-- A projection is constant on a head-extended list exactly when every
later element agrees with the head. -/
theorem _all_eq_head_iff {α β : Type} (f : α → β) (x : α) (S : List α) :
    (∀ y ∈ S, f y = f x) ↔ ∀ p ∈ x :: S, ∀ q ∈ x :: S, f p = f q := by
  constructor
  · intro h p hp q hq
    have hp' : f p = f x := by
      rcases List.mem_cons.mp hp with h1 | h1
      · rw [h1]
      · exact h p h1
    have hq' : f q = f x := by
      rcases List.mem_cons.mp hq with h1 | h1
      · rw [h1]
      · exact h q h1
    rw [hp', hq']
  · intro h y hy
    exact h y (List.mem_cons_of_mem _ hy) x (List.mem_cons_self _ _)


theorem _well_typed_cons (a : Arg) (rest : List Arg) :
    _well_typed (a :: rest) ↔ (a ≠ Arg.other ∧ _well_typed rest) := by
  simp [_well_typed]

theorem _non_exempt_cons_number (allow : Bool) (k : ScalarKind) (rest : List Arg) :
    _non_exempt_tensors allow (Arg.number k :: rest) = _non_exempt_tensors allow rest := by
  simp [_non_exempt_tensors]

theorem _non_exempt_cons_other (allow : Bool) (rest : List Arg) :
    _non_exempt_tensors allow (Arg.other :: rest) = _non_exempt_tensors allow rest := by
  simp [_non_exempt_tensors]

theorem _non_exempt_cons_tensor (allow : Bool) (t : Tensor) (rest : List Arg) :
    _non_exempt_tensors allow (Arg.tensor t :: rest) =
      if allow && is_cpu_scalar_tensor (Arg.tensor t) then
        _non_exempt_tensors allow rest
      else t :: _non_exempt_tensors allow rest := by
  cases allow <;> cases hc : is_cpu_scalar_tensor (Arg.tensor t) <;>
    simp [_non_exempt_tensors, List.filterMap_cons, hc]

/-- Once an expected device `d` has been recorded, the device scan
succeeds exactly when every remaining argument is well typed and every
remaining non-exempt tensor is on `d`. -/
theorem _csdv_go_some (allow : Bool) (args : List Arg) :
    ∀ d : Device,
      _csdv_go allow (some d) args = Except.ok () ↔
        (_well_typed args ∧ ∀ t ∈ _non_exempt_tensors allow args, t.device = d) := by
  induction args with
  | nil => intro d; simp [_csdv_go, _well_typed, _non_exempt_tensors]
  | cons a rest ih =>
    intro d
    cases a with
    | number k =>
      simp only [_csdv_go]
      rw [ih d, _well_typed_cons, _non_exempt_cons_number]
      simp
    | other =>
      simp only [_csdv_go]
      rw [_well_typed_cons]
      simp
    | tensor t =>
      rw [_well_typed_cons, _non_exempt_cons_tensor]
      by_cases hex : (allow && is_cpu_scalar_tensor (Arg.tensor t)) = true
      · rw [if_pos hex]
        simp only [_csdv_go, hex, if_true]
        rw [ih d]
        simp
      · rw [if_neg hex]
        simp only [_csdv_go, hex, Bool.false_eq_true, if_false, Option.getD_some]
        by_cases hdev : d = t.device
        · rw [if_neg (not_not_intro hdev), ih d]
          simp [hdev.symm]
        · rw [if_pos hdev]
          constructor
          · intro h; cases h
          · rintro ⟨-, h⟩
            exact absurd (h t (List.mem_cons_self _ _)).symm hdev

/-- The device scan started with no expected device succeeds exactly
when every argument is well typed and all non-exempt tensors share one
device. -/
theorem _csdv_go_none (allow : Bool) (args : List Arg) :
    _csdv_go allow none args = Except.ok () ↔
      (_well_typed args ∧ ∀ t ∈ _non_exempt_tensors allow args,
        ∀ t' ∈ _non_exempt_tensors allow args, t.device = t'.device) := by
  induction args with
  | nil => simp [_csdv_go, _well_typed, _non_exempt_tensors]
  | cons a rest ih =>
    cases a with
    | number k =>
      simp only [_csdv_go]
      rw [ih, _well_typed_cons, _non_exempt_cons_number]
      simp
    | other =>
      simp only [_csdv_go]
      rw [_well_typed_cons]
      simp
    | tensor t =>
      rw [_well_typed_cons, _non_exempt_cons_tensor]
      by_cases hex : (allow && is_cpu_scalar_tensor (Arg.tensor t)) = true
      · rw [if_pos hex]
        simp only [_csdv_go, hex, if_true]
        rw [ih]
        simp
      · rw [if_neg hex]
        simp only [_csdv_go, hex, Bool.false_eq_true, if_false, Option.getD_none]
        rw [if_neg (not_not_intro rfl), _csdv_go_some allow rest t.device]
        rw [_all_eq_head_iff Tensor.device t (_non_exempt_tensors allow rest)]
        simp

/-- Claim C6: with two or more arguments, `check_same_device` skips
Numbers and (when `allow_cpu_scalar_tensors`) rank-0 tensors whose
device kind is CPU; such exempt operands never become the expected
device and never cause failure.  The first non-exempt tensor's device
becomes the expected device, and the check fails exactly when some
argument is neither Number nor TensorLike or some non-exempt tensor's
device differs from it (equivalently: all non-exempt tensors agree on
one device).  With one or zero arguments it never fails. -/
theorem check_same_device_spec (allow : Bool) (args : List Arg) :
    (args.length ≤ 1 → check_same_device allow args = Except.ok ()) ∧
    (2 ≤ args.length →
      (check_same_device allow args = Except.ok () ↔
        (_well_typed args ∧ ∀ t ∈ _non_exempt_tensors allow args,
          ∀ t' ∈ _non_exempt_tensors allow args, t.device = t'.device))) := by
  constructor
  · intro h
    simp [check_same_device, h]
  · intro h
    have hlen : ¬ args.length ≤ 1 := by omega
    rw [check_same_device, if_neg hlen]
    exact _csdv_go_none allow args

/-- Witness for C6: a rank-0 CPU tensor and a rank-1 CUDA tensor pass
the check when `allow_cpu_scalar_tensors` is set (the CPU scalar tensor
is exempt), via the specification theorem. -/
theorem check_same_device_spec_witness :
    check_same_device true
      [Arg.tensor ⟨[], Dtype.float32, cpuDevice⟩,
        Arg.tensor ⟨[2], Dtype.float32, ⟨"cuda", some 0⟩⟩] = Except.ok () :=
  ((check_same_device_spec true
    [Arg.tensor ⟨[], Dtype.float32, cpuDevice⟩,
      Arg.tensor ⟨[2], Dtype.float32, ⟨"cuda", some 0⟩⟩]).2 (by decide)).mpr
    (by decide)

theorem _tensor_args_cons_number (k : ScalarKind) (rest : List Arg) :
    _tensor_args (Arg.number k :: rest) = _tensor_args rest := by
  simp [_tensor_args]

theorem _tensor_args_cons_other (rest : List Arg) :
    _tensor_args (Arg.other :: rest) = _tensor_args rest := by
  simp [_tensor_args]

theorem _tensor_args_cons_tensor (t : Tensor) (rest : List Arg) :
    _tensor_args (Arg.tensor t :: rest) = t :: _tensor_args rest := by
  simp [_tensor_args]

/-- Once an expected dtype `d` (and its scalar kind) has been recorded,
the dtype scan succeeds exactly when every remaining argument is well
typed and every remaining tensor's dtype is `d`. -/
theorem _csd_go_some (args : List Arg) :
    ∀ d : Dtype,
      _csd_go (some d) (some (dtype_to_type d)) args = Except.ok () ↔
        (_well_typed args ∧ ∀ t ∈ _tensor_args args, t.dtype = d) := by
  induction args with
  | nil => intro d; simp [_csd_go, _well_typed, _tensor_args]
  | cons a rest ih =>
    intro d
    cases a with
    | number k =>
      simp only [_csd_go]
      rw [ih d, _well_typed_cons, _tensor_args_cons_number]
      simp
    | other =>
      simp only [_csd_go]
      rw [_well_typed_cons]
      simp
    | tensor t =>
      rw [_well_typed_cons, _tensor_args_cons_tensor]
      simp only [_csd_go, Option.getD_some]
      by_cases hdt : d = t.dtype
      · rw [if_neg (not_not_intro hdt), if_neg (not_not_intro (by rw [hdt])), ih d]
        simp [hdt.symm]
      · rw [if_pos hdt]
        constructor
        · intro h; cases h
        · rintro ⟨-, h⟩
          exact absurd (h t (List.mem_cons_self _ _)).symm hdt

/-- The dtype scan started with nothing recorded succeeds exactly when
every argument is well typed and all tensors share one dtype. -/
theorem _csd_go_none (args : List Arg) :
    _csd_go none none args = Except.ok () ↔
      (_well_typed args ∧ ∀ t ∈ _tensor_args args,
        ∀ t' ∈ _tensor_args args, t.dtype = t'.dtype) := by
  induction args with
  | nil => simp [_csd_go, _well_typed, _tensor_args]
  | cons a rest ih =>
    cases a with
    | number k =>
      simp only [_csd_go]
      rw [ih, _well_typed_cons, _tensor_args_cons_number]
      simp
    | other =>
      simp only [_csd_go]
      rw [_well_typed_cons]
      simp
    | tensor t =>
      rw [_well_typed_cons, _tensor_args_cons_tensor]
      simp only [_csd_go, Option.getD_none]
      rw [if_neg (not_not_intro rfl), if_neg (not_not_intro rfl),
        _csd_go_some rest t.dtype]
      rw [_all_eq_head_iff Tensor.dtype t (_tensor_args rest)]
      simp

/-- Claim C9: `check_same_dtype` never fails on account of a Number
argument (scalars are exempted entirely); it fails exactly when some
argument is neither Number nor TensorLike, or some tensor's dtype
differs from the first-seen tensor dtype, or some tensor's derived
scalar kind differs from the first-seen kind (equivalently: all tensors
agree on dtype and scalar kind). -/
theorem check_same_dtype_spec (args : List Arg) :
    check_same_dtype args = Except.ok () ↔
      (_well_typed args ∧ ∀ t ∈ _tensor_args args,
        ∀ t' ∈ _tensor_args args,
          t.dtype = t'.dtype ∧ dtype_to_type t.dtype = dtype_to_type t'.dtype) := by
  rw [check_same_dtype, _csd_go_none]
  constructor
  · rintro ⟨hw, hp⟩
    exact ⟨hw, fun t ht t' ht' => ⟨hp t ht t' ht', by rw [hp t ht t' ht']⟩⟩
  · rintro ⟨hw, hp⟩
    exact ⟨hw, fun t ht t' ht' => (hp t ht t' ht').1⟩

/-- Witness for C9: a float Number mixed with two float32 tensors (one
rank-0) passes the check, via the specification theorem. -/
theorem check_same_dtype_spec_witness :
    check_same_dtype
      [Arg.number ScalarKind.float,
        Arg.tensor ⟨[2], Dtype.float32, cpuDevice⟩,
        Arg.tensor ⟨[], Dtype.float32, cpuDevice⟩] = Except.ok () :=
  (check_same_dtype_spec
    [Arg.number ScalarKind.float,
      Arg.tensor ⟨[2], Dtype.float32, cpuDevice⟩,
      Arg.tensor ⟨[], Dtype.float32, cpuDevice⟩]).mpr (by decide)


/-- Claim C3 (amended): with base result dtype R, the promotion-kind
policy gives: DEFAULT -> (R, R); OP_MATH -> (m(R), R); INT_TO_FLOAT
sets R2 = default float dtype when R is integer or boolean (else
R2 = R) and gives (m(R2), R2); COMPLEX_TO_FLOAT -> (m(R),
corresponding_real_dtype(R)) when R is complex, else (m(R), R);
BOOL_TO_LONG -> (int64, int64) when R is boolean, else (R, R) --- the
code does NOT apply m in this else branch, unlike the original claim;
ALWAYS_BOOL -> (R, bool); and m is the identity except
float16 -> float32, bfloat16 -> float32, complex32 -> complex64. -/
theorem promotion_kind_policy (dflt : Dtype) (_args : List (Option Arg)) (R : Dtype)
    (h : _base_result_dtype dflt (_args.filterMap id) = Except.ok R) :
    elementwise_dtypes dflt _args .DEFAULT = Except.ok (R, R) ∧
    elementwise_dtypes dflt _args .OP_MATH =
      Except.ok (_get_computation_dtype R, R) ∧
    elementwise_dtypes dflt _args .INT_TO_FLOAT =
      Except.ok
        (_get_computation_dtype
          (if is_integer_dtype R || is_boolean_dtype R then dflt else R),
          if is_integer_dtype R || is_boolean_dtype R then dflt else R) ∧
    elementwise_dtypes dflt _args .COMPLEX_TO_FLOAT =
      Except.ok (_get_computation_dtype R,
        if is_complex_dtype R then (corresponding_real_dtype R).getD R else R) ∧
    elementwise_dtypes dflt _args .BOOL_TO_LONG =
      Except.ok
        (if is_boolean_dtype R then (Dtype.int64, Dtype.int64) else (R, R)) ∧
    elementwise_dtypes dflt _args .ALWAYS_BOOL = Except.ok (R, Dtype.bool) ∧
    (∀ d : Dtype, _get_computation_dtype d =
      if d = Dtype.float16 || d = Dtype.bfloat16 then Dtype.float32
      else if d = Dtype.complex32 then Dtype.complex64 else d) := by
  refine ⟨?_, ?_, ?_, ?_, ?_, ?_, by decide⟩ <;>
    · simp only [elementwise_dtypes, h]
      all_goals
        first
        | rfl
        | (cases R <;> rfl)

/-- Witness for C3: a lone rank-1 float16 tensor (base result dtype
float16) yields (float32, float16) under OP_MATH, and a lone rank-1
complex64 tensor (base result dtype complex64) yields
(complex64, float32) under COMPLEX_TO_FLOAT, via the policy theorem. -/
theorem promotion_kind_policy_witness :
    _base_result_dtype Dtype.float32
        ([some (Arg.tensor ⟨[2], Dtype.float16, cpuDevice⟩)].filterMap id) =
      Except.ok Dtype.float16 ∧
    elementwise_dtypes Dtype.float32
        [some (Arg.tensor ⟨[2], Dtype.float16, cpuDevice⟩)]
        ELEMENTWISE_TYPE_PROMOTION_KIND.OP_MATH =
      Except.ok (Dtype.float32, Dtype.float16) ∧
    elementwise_dtypes Dtype.float32
        [some (Arg.tensor ⟨[2], Dtype.complex64, cpuDevice⟩)]
        ELEMENTWISE_TYPE_PROMOTION_KIND.COMPLEX_TO_FLOAT =
      Except.ok (Dtype.complex64, Dtype.float32) :=
  ⟨by decide,
   (promotion_kind_policy Dtype.float32
     [some (Arg.tensor ⟨[2], Dtype.float16, cpuDevice⟩)] Dtype.float16
     (by decide)).2.1,
   (promotion_kind_policy Dtype.float32
     [some (Arg.tensor ⟨[2], Dtype.complex64, cpuDevice⟩)] Dtype.complex64
     (by decide)).2.2.2.1⟩


theorem _fhdf_mapped_true (d : Dtype) : _fhdf_mapped true d = _as_complex d := by
  simp [_fhdf_mapped, _as_complex]

/-- The accumulator loop of `_find_highest_dtype_filtered` equals a pair
of left folds over the two selections of the argument list. -/
theorem _fhdf_go_spec (filt : Dtype → Bool) (fac ate : Bool) (args : List Arg) :
    ∀ z o : Option Dtype,
      _fhdf_go filt fac ate z o args =
        ((args.filterMap (_fhdf_zero_sel filt fac ate)).foldl _promotion_step z,
         (args.filterMap (_fhdf_one_sel filt fac ate)).foldl _promotion_step o) := by
  induction args with
  | nil => intro z o; simp [_fhdf_go]
  | cons a rest ih =>
    intro z o
    cases a with
    | number k =>
      simp only [_fhdf_go]
      rw [ih]
      simp [_fhdf_zero_sel, _fhdf_one_sel, List.filterMap_cons]
    | other =>
      simp only [_fhdf_go]
      rw [ih]
      simp [_fhdf_zero_sel, _fhdf_one_sel, List.filterMap_cons]
    | tensor t =>
      by_cases hf : filt t.dtype = true
      · by_cases hz : (decide (t.ndim = 0) && !ate) = true
        · simp only [_fhdf_go, hf, hz, if_true]
          rw [ih]
          simp only [List.filterMap_cons, _fhdf_zero_sel, _fhdf_one_sel, hf, hz,
            Bool.true_and, Bool.not_true, Bool.and_false, Bool.false_eq_true,
            if_false, if_true, List.foldl_cons, _promotion_step]
        · simp only [_fhdf_go, hf, hz, if_true, Bool.false_eq_true, if_false]
          rw [ih]
          simp only [List.filterMap_cons, _fhdf_zero_sel, _fhdf_one_sel, hf, hz,
            Bool.true_and, Bool.false_eq_true, if_false, Bool.not_false, if_true,
            List.foldl_cons, _promotion_step]
      · simp only [_fhdf_go, hf, Bool.false_eq_true, if_false]
        rw [ih]
        simp [_fhdf_zero_sel, _fhdf_one_sel, List.filterMap_cons, hf]

theorem _fct_cons_number (k : ScalarKind) (rest : List Arg) :
    _float_complex_tensors (Arg.number k :: rest) = _float_complex_tensors rest := by
  simp [_float_complex_tensors]

theorem _fct_cons_other (rest : List Arg) :
    _float_complex_tensors (Arg.other :: rest) = _float_complex_tensors rest := by
  simp [_float_complex_tensors]

theorem _fct_cons_tensor (t : Tensor) (rest : List Arg) :
    _float_complex_tensors (Arg.tensor t :: rest) =
      if _float_or_complex t.dtype then t :: _float_complex_tensors rest
      else _float_complex_tensors rest := by
  cases hc : _float_or_complex t.dtype <;>
    simp [_float_complex_tensors, List.filterMap_cons, hc]

/-- With `all_tensors_equal` unset, the one-plus-dim selection keeps
exactly the rank>0 float-or-complex tensors, mapped to complex. -/
theorem _one_sel_false_list (args : List Arg) :
    args.filterMap (_fhdf_one_sel _float_or_complex true false) =
      ((_float_complex_tensors args).filter fun t => 0 < t.ndim).map
        fun t => _as_complex t.dtype := by
  induction args with
  | nil => simp [_float_complex_tensors]
  | cons a rest ih =>
    cases a with
    | number k =>
      rw [List.filterMap_cons, _fct_cons_number]
      simpa [_fhdf_one_sel] using ih
    | other =>
      rw [List.filterMap_cons, _fct_cons_other]
      simpa [_fhdf_one_sel] using ih
    | tensor t =>
      rw [List.filterMap_cons, _fct_cons_tensor]
      by_cases hf : _float_or_complex t.dtype = true
      · by_cases hn : t.ndim = 0
        · simp [_fhdf_one_sel, hf, hn, ih]
        · have hp : 0 < t.ndim := Nat.pos_of_ne_zero hn
          simp [_fhdf_one_sel, hf, hn, hp, ih, _fhdf_mapped_true]
      · simp [_fhdf_one_sel, hf, ih]

/-- With `all_tensors_equal` unset, the zero-dim selection keeps exactly
the rank-0 float-or-complex tensors, mapped to complex. -/
theorem _zero_sel_false_list (args : List Arg) :
    args.filterMap (_fhdf_zero_sel _float_or_complex true false) =
      ((_float_complex_tensors args).filter fun t => t.ndim = 0).map
        fun t => _as_complex t.dtype := by
  induction args with
  | nil => simp [_float_complex_tensors]
  | cons a rest ih =>
    cases a with
    | number k =>
      rw [List.filterMap_cons, _fct_cons_number]
      simpa [_fhdf_zero_sel] using ih
    | other =>
      rw [List.filterMap_cons, _fct_cons_other]
      simpa [_fhdf_zero_sel] using ih
    | tensor t =>
      rw [List.filterMap_cons, _fct_cons_tensor]
      by_cases hf : _float_or_complex t.dtype = true
      · by_cases hn : t.ndim = 0
        · simp [_fhdf_zero_sel, hf, hn, ih, _fhdf_mapped_true]
        · simp [_fhdf_zero_sel, hf, hn, ih]
      · simp [_fhdf_zero_sel, hf, ih]

/-- With `all_tensors_equal` set, the zero-dim selection is empty. -/
theorem _zero_sel_true_list (filt : Dtype → Bool) (fac : Bool) (args : List Arg) :
    args.filterMap (_fhdf_zero_sel filt fac true) = [] := by
  induction args with
  | nil => rfl
  | cons a rest ih =>
    cases a <;> simp [List.filterMap_cons, _fhdf_zero_sel, ih]

/-- With `all_tensors_equal` set, the one-plus-dim selection keeps every
float-or-complex tensor regardless of rank, mapped to complex. -/
theorem _one_sel_true_list (args : List Arg) :
    args.filterMap (_fhdf_one_sel _float_or_complex true true) =
      (_float_complex_tensors args).map fun t => _as_complex t.dtype := by
  induction args with
  | nil => simp [_float_complex_tensors]
  | cons a rest ih =>
    cases a with
    | number k =>
      rw [List.filterMap_cons, _fct_cons_number]
      simpa [_fhdf_one_sel] using ih
    | other =>
      rw [List.filterMap_cons, _fct_cons_other]
      simpa [_fhdf_one_sel] using ih
    | tensor t =>
      rw [List.filterMap_cons, _fct_cons_tensor]
      by_cases hf : _float_or_complex t.dtype = true
      · simp [_fhdf_one_sel, hf, ih, _fhdf_mapped_true]
      · simp [_fhdf_one_sel, hf, ih]

/-- The rank-preferring filtered scan of the complex branch equals the
specification's rank-split scan. -/
theorem _fhdf_pref_eq (args : List Arg) :
    _find_highest_dtype_filtered args _float_or_complex true false =
      _complex_scan_preferring args := by
  unfold _find_highest_dtype_filtered _complex_scan_preferring
  rw [_fhdf_go_spec, _one_sel_false_list, _zero_sel_false_list]
  simp only [_highest_mapped]

/-- The rank-ignoring filtered scan of the complex branch equals the
specification's flat scan over all float-or-complex tensors. -/
theorem _fhdf_all_eq (args : List Arg) :
    _find_highest_dtype_filtered args _float_or_complex true true =
      _complex_scan_rank_ignored args := by
  unfold _find_highest_dtype_filtered _complex_scan_rank_ignored
  rw [_fhdf_go_spec, _one_sel_true_list, _zero_sel_true_list]
  cases h : ((_float_complex_tensors args).map fun t =>
      _as_complex t.dtype).foldl _promotion_step none <;>
    simp [_highest_mapped, h]

/-- Claim C1: when the highest scalar kind of the operands is complex,
the base result dtype of `elementwise_dtypes` is obtained by scanning
the float-or-complex-dtype tensors with float dtypes mapped to their
corresponding complex dtypes: preferring rank>0 tensors over rank-0
tensors when some rank>0 complex tensor exists, and ignoring rank
entirely otherwise; when neither scan yields a dtype, the result is the
complex dtype corresponding to the default float dtype. -/
theorem elementwise_dtypes_complex_branch (dflt cc : Dtype) (args : List Arg)
    (hdflt : corresponding_complex_dtype dflt = some cc)
    (hht : _highest_type args = Except.ok ScalarKind.complex) :
    _base_result_dtype dflt args =
      Except.ok ((if _has_one_plus_dim_complex_tensor args then
          _complex_scan_preferring args
        else _complex_scan_rank_ignored args).getD cc) := by
  unfold _base_result_dtype
  rw [hht]
  dsimp only
  rw [_fhdf_pref_eq, _fhdf_all_eq]
  by_cases hc : _has_one_plus_dim_complex_tensor args = true
  · rw [if_pos hc]
    cases hs : _complex_scan_preferring args <;> simp [hs, hdflt]
  · rw [if_neg hc]
    cases hs : _complex_scan_rank_ignored args <;> simp [hs, hdflt]

/-- Witness for C1: a rank-0 complex128 tensor together with a rank-1
float32 tensor (highest kind complex, no rank>0 complex tensor): the
rank-ignoring scan applies and the base result dtype is complex128,
via the complex-branch theorem. -/
theorem elementwise_dtypes_complex_branch_witness :
    corresponding_complex_dtype Dtype.float32 = some Dtype.complex64 ∧
    _highest_type
        [Arg.tensor ⟨[], Dtype.complex128, cpuDevice⟩,
          Arg.tensor ⟨[2], Dtype.float32, cpuDevice⟩] =
      Except.ok ScalarKind.complex ∧
    _base_result_dtype Dtype.float32
        [Arg.tensor ⟨[], Dtype.complex128, cpuDevice⟩,
          Arg.tensor ⟨[2], Dtype.float32, cpuDevice⟩] =
      Except.ok ((if _has_one_plus_dim_complex_tensor
            [Arg.tensor ⟨[], Dtype.complex128, cpuDevice⟩,
              Arg.tensor ⟨[2], Dtype.float32, cpuDevice⟩] then
          _complex_scan_preferring
            [Arg.tensor ⟨[], Dtype.complex128, cpuDevice⟩,
              Arg.tensor ⟨[2], Dtype.float32, cpuDevice⟩]
        else
          _complex_scan_rank_ignored
            [Arg.tensor ⟨[], Dtype.complex128, cpuDevice⟩,
              Arg.tensor ⟨[2], Dtype.float32, cpuDevice⟩]).getD Dtype.complex64) :=
  ⟨by decide, by decide,
   elementwise_dtypes_complex_branch Dtype.float32 Dtype.complex64
     [Arg.tensor ⟨[], Dtype.complex128, cpuDevice⟩,
       Arg.tensor ⟨[2], Dtype.float32, cpuDevice⟩]
     (by decide) (by decide)⟩

end TorchPrims
